import Mathlib

/-!
# Verification of the 1D relativistic collision page

Shallow embedding of `src/pages/ 1D Collisions and  Relativistic Momentum
Transfer .py` (and the shared kinematics primitives of
`src/pages/Relativistic Energy and Momentum Calculator.py`) over the real
numbers, with theorems settling the spec's claims about it.

Floating-point arithmetic is modelled by exact real arithmetic; `np.sqrt`
becomes `Real.sqrt`.  The external root solver `scipy.optimize.fsolve` is not
repository code: following the spec, it is modelled as an abstract solver
function, with its convergence expressed as a hypothesis that its output is a
root of the residual function the page hands to it.
-/

noncomputable section

namespace Collisions

/-- Lorentz factor, from the page's `gamma`: `1 / np.sqrt(1 - v**2)`.
The source performs no domain check. -/
def gamma (v : ℝ) : ℝ := 1 / Real.sqrt (1 - v ^ 2)

/-- Relativistic energy `E = γ m`, as computed at lines 50 and 71-72 of the
collision page (`E1 = g1 * m1`, etc.). -/
def energy (m v : ℝ) : ℝ := gamma v * m

/-- Relativistic momentum `p = γ m v`, as computed at lines 51 and 69-70 of
the collision page (`p1 = g1 * m1 * v1`, etc.). -/
def momentum (m v : ℝ) : ℝ := gamma v * m * v

/-- Pre-collision total energy `E_total = E1 + E2` (line 52). -/
def E_total (m1 v1 m2 v2 : ℝ) : ℝ := energy m1 v1 + energy m2 v2

/-- Pre-collision total momentum `p_total = p1 + p2` (line 52). -/
def p_total (m1 v1 m2 v2 : ℝ) : ℝ := momentum m1 v1 + momentum m2 v2

/-- Center-of-momentum frame velocity `v_com = p_total / E_total`
(line 104). -/
def v_com (m1 v1 m2 v2 : ℝ) : ℝ := p_total m1 v1 m2 v2 / E_total m1 v1 m2 v2

/-- Result record of the perfectly inelastic branch (lines 55-62). -/
structure InelasticResult where
  vf : ℝ
  gf : ℝ
  M : ℝ
  E_final : ℝ
  p_final : ℝ

/-- The perfectly inelastic branch (lines 55-62): closed-form assignments
`vf = p_total / E_total`, `gf = gamma(vf)`, `M = sqrt(E_total^2 - p_total^2)`,
`E_final = E_total`, `p_final = p_total`. -/
def inelastic (m1 v1 m2 v2 : ℝ) : InelasticResult :=
  let Et := E_total m1 v1 m2 v2
  let pt := p_total m1 v1 m2 v2
  { vf := pt / Et
    gf := gamma (pt / Et)
    M := Real.sqrt (Et ^ 2 - pt ^ 2)
    E_final := Et
    p_final := pt }

/-- The residual function `to_solutions` handed to the root solver
(lines 66-73): given candidate final velocities it returns
`(p1f + p2f - p_total, E1f + E2f - E_total)`. -/
def to_solutions (m1 m2 E_tot p_tot : ℝ) (vars : ℝ × ℝ) : ℝ × ℝ :=
  let v1f := vars.1
  let v2f := vars.2
  let g1f := gamma v1f
  let g2f := gamma v2f
  let p1f := g1f * m1 * v1f
  let p2f := g2f * m2 * v2f
  let E1f := g1f * m1
  let E2f := g2f * m2
  (p1f + p2f - p_tot, E1f + E2f - E_tot)

/-- The initial guess handed to the solver, `guess = [v2, v1]` (line 75):
the pre-swap velocities, in reversed order. -/
def guess (v1 v2 : ℝ) : ℝ × ℝ := (v2, v1)

/-- Result record of the elastic branch (lines 76-79). -/
structure ElasticResult where
  v1f : ℝ
  v2f : ℝ
  E1f : ℝ
  E2f : ℝ
  p1f : ℝ
  p2f : ℝ

/-- The elastic branch (lines 65-79), with `scipy.optimize.fsolve` abstracted
as a `solve` function taking the residual function and the initial guess:
`v1f, v2f = solve(to_solutions, guess)`, then recomputation of the final
energies and momenta from the solved velocities. -/
def elastic (solve : (ℝ × ℝ → ℝ × ℝ) → ℝ × ℝ → ℝ × ℝ)
    (m1 v1 m2 v2 : ℝ) : ElasticResult :=
  let Et := E_total m1 v1 m2 v2
  let pt := p_total m1 v1 m2 v2
  let sol := solve (to_solutions m1 m2 Et pt) (guess v1 v2)
  let g1f := gamma sol.1
  let g2f := gamma sol.2
  { v1f := sol.1
    v2f := sol.2
    E1f := g1f * m1
    E2f := g2f * m2
    p1f := g1f * m1 * sol.1
    p2f := g2f * m2 * sol.2 }

/-- `gamma` as the page actually runs it: the body of `gamma` contains no
validation and no `raise`; every call returns a value (NumPy emits warnings,
not exceptions, on `1 - v**2 <= 0`).  Embedded as an `Except` computation to
make "raises a domain error" statable: the source has no error branch, so the
result is always `Except.ok`. -/
def gammaRun (v : ℝ) : Except String ℝ := Except.ok (gamma v)

/-- The elastic results display (lines 97-101): it recomputes the residuals
`ΔE = E1f + E2f - E_total` and `Δp = p1f + p2f - p_total` from the solved
state and renders them, unconditionally.  Embedded as an `Option` to make
"suppresses presentation on failure" statable: the source has no check and no
suppression branch, so the result is always `some`. -/
def elasticPresent (Et pt : ℝ) (r : ElasticResult) :
    Option (ElasticResult × ℝ × ℝ) :=
  some (r, r.E1f + r.E2f - Et, r.p1f + r.p2f - pt)

/-- Widget lower bound on each mass: `min_value=0.1` (lines 36 and 40). -/
def massInputMin : ℝ := 0.1

/-- Widget lower bound on each velocity: `min_value=-0.999`
(lines 37 and 41). -/
def velInputMin : ℝ := -0.999

/-- Widget upper bound on each velocity: `max_value=0.999`
(lines 37 and 41). -/
def velInputMax : ℝ := 0.999

/-- A mass value the page's `st.number_input` widget can deliver. -/
def acceptedMass (m : ℝ) : Prop := massInputMin ≤ m

/-- A velocity value the page's `st.number_input` widget can deliver. -/
def acceptedVel (v : ℝ) : Prop := velInputMin ≤ v ∧ v ≤ velInputMax

/-! ## Basic kinematics lemmas -/

lemma one_sub_sq_pos {v : ℝ} (hv : |v| < 1) : 0 < 1 - v ^ 2 := by
  have h2 : v ^ 2 < 1 := by
    have := abs_lt.mp hv
    nlinarith [this.1, this.2]
  linarith

lemma sqrt_one_sub_sq_pos {v : ℝ} (hv : |v| < 1) :
    0 < Real.sqrt (1 - v ^ 2) :=
  Real.sqrt_pos.mpr (one_sub_sq_pos hv)

lemma gamma_pos {v : ℝ} (hv : |v| < 1) : 0 < gamma v := by
  unfold gamma
  exact div_pos one_pos (sqrt_one_sub_sq_pos hv)

lemma gamma_sq {v : ℝ} (hv : |v| < 1) : gamma v ^ 2 = 1 / (1 - v ^ 2) := by
  unfold gamma
  rw [div_pow, one_pow, Real.sq_sqrt (le_of_lt (one_sub_sq_pos hv))]

lemma gamma_neg (v : ℝ) : gamma (-v) = gamma v := by
  unfold gamma
  rw [neg_pow]
  ring_nf

lemma energy_pos {m v : ℝ} (hm : 0 < m) (hv : |v| < 1) : 0 < energy m v :=
  mul_pos (gamma_pos hv) hm

lemma energy_neg (m v : ℝ) : energy m (-v) = energy m v := by
  unfold energy; rw [gamma_neg]

lemma momentum_neg (m v : ℝ) : momentum m (-v) = -momentum m v := by
  unfold momentum; rw [gamma_neg]; ring

/-- The mass-shell identity, exactly, in the real-number model. -/
lemma energy_sq_sub_momentum_sq {m v : ℝ} (hv : |v| < 1) :
    energy m v ^ 2 - momentum m v ^ 2 = m ^ 2 := by
  unfold energy momentum
  have h1 : (0:ℝ) < 1 - v ^ 2 := one_sub_sq_pos hv
  have hg : gamma v ^ 2 = 1 / (1 - v ^ 2) := gamma_sq hv
  have : gamma v ^ 2 * (1 - v ^ 2) = 1 := by
    rw [hg]; field_simp
  nlinarith [this]

/-- `|p| < E` for a massive sub-luminal particle. -/
lemma abs_momentum_lt_energy {m v : ℝ} (hm : 0 < m) (hv : |v| < 1) :
    |momentum m v| < energy m v := by
  unfold momentum energy
  have hE : 0 < gamma v * m := mul_pos (gamma_pos hv) hm
  rw [abs_mul, abs_of_pos hE]
  calc gamma v * m * |v| < gamma v * m * 1 := by
        exact mul_lt_mul_of_pos_left hv hE
    _ = gamma v * m := mul_one _

lemma abs_p_total_lt_E_total {m1 v1 m2 v2 : ℝ} (hm1 : 0 < m1) (hm2 : 0 < m2)
    (hv1 : |v1| < 1) (hv2 : |v2| < 1) :
    |p_total m1 v1 m2 v2| < E_total m1 v1 m2 v2 := by
  unfold p_total E_total
  calc |momentum m1 v1 + momentum m2 v2|
      ≤ |momentum m1 v1| + |momentum m2 v2| := abs_add _ _
    _ < energy m1 v1 + energy m2 v2 :=
        add_lt_add (abs_momentum_lt_energy hm1 hv1) (abs_momentum_lt_energy hm2 hv2)

lemma E_total_pos {m1 v1 m2 v2 : ℝ} (hm1 : 0 < m1) (hm2 : 0 < m2)
    (hv1 : |v1| < 1) (hv2 : |v2| < 1) : 0 < E_total m1 v1 m2 v2 :=
  add_pos (energy_pos hm1 hv1) (energy_pos hm2 hv2)

lemma abs_v_com_lt_one {m1 v1 m2 v2 : ℝ} (hm1 : 0 < m1) (hm2 : 0 < m2)
    (hv1 : |v1| < 1) (hv2 : |v2| < 1) :
    |p_total m1 v1 m2 v2 / E_total m1 v1 m2 v2| < 1 := by
  have hE := E_total_pos hm1 hm2 hv1 hv2
  rw [abs_div, abs_of_pos hE, div_lt_one hE]
  exact abs_p_total_lt_E_total hm1 hm2 hv1 hv2

/-- Relative Lorentz factor inequality: for sub-luminal `a` and `v`,
`γ(a)·γ(v)·(1 − a·v) ≥ 1` — it is the Lorentz factor of the relative
velocity of the two frames. -/
lemma gamma_rel_ge_one {a v : ℝ} (ha : |a| < 1) (hv : |v| < 1) :
    1 ≤ gamma a * gamma v * (1 - a * v) := by
  set s := Real.sqrt (1 - a ^ 2) with hs_def
  set t := Real.sqrt (1 - v ^ 2) with ht_def
  have hs : 0 < s := sqrt_one_sub_sq_pos ha
  have ht : 0 < t := sqrt_one_sub_sq_pos hv
  have hs2 : s ^ 2 = 1 - a ^ 2 := Real.sq_sqrt (le_of_lt (one_sub_sq_pos ha))
  have ht2 : t ^ 2 = 1 - v ^ 2 := Real.sq_sqrt (le_of_lt (one_sub_sq_pos hv))
  have hkey : s * t ≤ 1 - a * v := by
    nlinarith [sq_nonneg (a - v), sq_nonneg (s - t), mul_pos hs ht,
      sq_nonneg (s * t - (1 - a * v))]
  have hG : gamma a * gamma v * (1 - a * v) = (1 - a * v) / (s * t) := by
    unfold gamma
    rw [← hs_def, ← ht_def]
    field_simp
  rw [hG, le_div_iff₀ (mul_pos hs ht), one_mul]
  exact hkey

/-- Equality case of `gamma_rel_ge_one`: the relative Lorentz factor is `1`
only when the two velocities coincide. -/
lemma gamma_rel_eq_one {a v : ℝ} (ha : |a| < 1) (hv : |v| < 1)
    (h : gamma a * gamma v * (1 - a * v) = 1) : a = v := by
  set s := Real.sqrt (1 - a ^ 2) with hs_def
  set t := Real.sqrt (1 - v ^ 2) with ht_def
  have hs : 0 < s := sqrt_one_sub_sq_pos ha
  have ht : 0 < t := sqrt_one_sub_sq_pos hv
  have hs2 : s ^ 2 = 1 - a ^ 2 := Real.sq_sqrt (le_of_lt (one_sub_sq_pos ha))
  have ht2 : t ^ 2 = 1 - v ^ 2 := Real.sq_sqrt (le_of_lt (one_sub_sq_pos hv))
  have hG : gamma a * gamma v * (1 - a * v) = (1 - a * v) / (s * t) := by
    unfold gamma
    rw [← hs_def, ← ht_def]
    field_simp
  rw [hG, div_eq_one_iff_eq (ne_of_gt (mul_pos hs ht))] at h
  have hsq : (a - v) ^ 2 = 0 := by nlinarith [h, hs2, ht2]
  have := pow_eq_zero_iff (n := 2) (by norm_num) |>.mp hsq
  linarith [sub_eq_zero.mp this]

/-- When both incoming particles share the velocity `v`, the only
sub-luminal root of the elastic conservation system is `(v, v)`. -/
lemma elastic_root_unique {m1 m2 v a b : ℝ} (hm1 : 0 < m1) (hm2 : 0 < m2)
    (hv : |v| < 1) (ha : |a| < 1) (hb : |b| < 1)
    (hroot : to_solutions m1 m2 (E_total m1 v m2 v) (p_total m1 v m2 v)
      (a, b) = (0, 0)) :
    a = v ∧ b = v := by
  simp only [to_solutions, E_total, p_total, energy, momentum,
    Prod.mk.injEq] at hroot
  obtain ⟨hp, hE⟩ := hroot
  have hp_eq : gamma a * m1 * a + gamma b * m2 * b =
      gamma v * m1 * v + gamma v * m2 * v := by linarith
  have hE_eq : gamma a * m1 + gamma b * m2 = gamma v * m1 + gamma v * m2 := by
    linarith
  have h1v : (0:ℝ) < 1 - v ^ 2 := one_sub_sq_pos hv
  have hgv1 : gamma v ^ 2 * (1 - v ^ 2) = 1 := by
    rw [gamma_sq hv]
    field_simp
  have hA : 1 ≤ gamma a * gamma v * (1 - a * v) := gamma_rel_ge_one ha hv
  have hB : 1 ≤ gamma b * gamma v * (1 - b * v) := gamma_rel_ge_one hb hv
  have hsum : m1 * (gamma a * gamma v * (1 - a * v))
      + m2 * (gamma b * gamma v * (1 - b * v)) = m1 + m2 := by
    linear_combination gamma v * hE_eq - gamma v * v * hp_eq
      + (m1 + m2) * hgv1
  have hA1 : gamma a * gamma v * (1 - a * v) = 1 := by nlinarith
  have hB1 : gamma b * gamma v * (1 - b * v) = 1 := by nlinarith
  exact ⟨gamma_rel_eq_one ha hv hA1, gamma_rel_eq_one hb hv hB1⟩

/-! ## Theorems for the spec claims -/

/-- C5: for every valid particle state (`m > 0`, `-1 < v < 1`), the derived
kinematic values `energy(m,v) = γ(v)·m` and `momentum(m,v) = γ(v)·m·v`
satisfy the mass-shell identity `energy² - momentum² = m²` within `1e-9`
(in fact exactly, in the real-number model of the computation). -/
theorem mass_shell_identity (m v : ℝ) (hm : 0 < m) (hv : |v| < 1) :
    |energy m v ^ 2 - momentum m v ^ 2 - m ^ 2| ≤ 1e-9 := by
  rw [energy_sq_sub_momentum_sq hv, sub_self, abs_zero]
  norm_num

/-- Witness for C5 at the concrete valid state `m = 1`, `v = 0`. -/
theorem mass_shell_identity_witness :
    (0:ℝ) < 1 ∧ |(0:ℝ)| < 1 ∧
      |energy 1 0 ^ 2 - momentum 1 0 ^ 2 - (1:ℝ) ^ 2| ≤ 1e-9 :=
  ⟨by norm_num, by norm_num, mass_shell_identity 1 0 (by norm_num) (by norm_num)⟩

/-- C2: for every valid input the perfectly-inelastic branch computes, in
closed form, `final_velocity = p_total / E_total`,
`invariant_mass = √(E_total² - p_total²)`, and a final energy and momentum
equal to the system totals exactly. -/
theorem inelastic_closed_form (m1 v1 m2 v2 : ℝ) (hm1 : 0 < m1) (hm2 : 0 < m2)
    (hv1 : |v1| < 1) (hv2 : |v2| < 1) :
    (inelastic m1 v1 m2 v2).vf = p_total m1 v1 m2 v2 / E_total m1 v1 m2 v2 ∧
    (inelastic m1 v1 m2 v2).M =
      Real.sqrt (E_total m1 v1 m2 v2 ^ 2 - p_total m1 v1 m2 v2 ^ 2) ∧
    (inelastic m1 v1 m2 v2).E_final = E_total m1 v1 m2 v2 ∧
    (inelastic m1 v1 m2 v2).p_final = p_total m1 v1 m2 v2 :=
  ⟨rfl, rfl, rfl, rfl⟩

/-- Witness for C2 at the concrete valid input `m1 = m2 = 1`,
`v1 = v2 = 0`. -/
theorem inelastic_closed_form_witness :
    (0:ℝ) < 1 ∧ |(0:ℝ)| < 1 ∧
      ((inelastic 1 0 1 0).vf = p_total 1 0 1 0 / E_total 1 0 1 0 ∧
       (inelastic 1 0 1 0).M =
         Real.sqrt (E_total 1 0 1 0 ^ 2 - p_total 1 0 1 0 ^ 2) ∧
       (inelastic 1 0 1 0).E_final = E_total 1 0 1 0 ∧
       (inelastic 1 0 1 0).p_final = p_total 1 0 1 0) :=
  ⟨by norm_num, by norm_num,
    inelastic_closed_form 1 0 1 0 (by norm_num) (by norm_num)
      (by norm_num) (by norm_num)⟩

/-- C7: the elastic branch hands the root solver exactly the pre-swap
velocities `(v2, v1)` as its starting point, and the branch result is built
from the solver output at that seed. -/
theorem elastic_seed_is_pre_swap
    (solve : (ℝ × ℝ → ℝ × ℝ) → ℝ × ℝ → ℝ × ℝ) (m1 v1 m2 v2 : ℝ) :
    guess v1 v2 = (v2, v1) ∧
    (elastic solve m1 v1 m2 v2).v1f =
      (solve (to_solutions m1 m2 (E_total m1 v1 m2 v2) (p_total m1 v1 m2 v2))
        (v2, v1)).1 ∧
    (elastic solve m1 v1 m2 v2).v2f =
      (solve (to_solutions m1 m2 (E_total m1 v1 m2 v2) (p_total m1 v1 m2 v2))
        (v2, v1)).2 :=
  ⟨rfl, rfl, rfl⟩

/-- C10: every value the page's input widgets can deliver (`m ≥ 0.1`,
`-0.999 ≤ v ≤ 0.999`) already satisfies the core preconditions `m > 0` and
`|v| < 1`, and makes `gamma`'s radicand `1 - v²` strictly positive, so the
undefined/divergent branch of `gamma` is unreachable through the page even
though `gamma` itself performs no check. -/
theorem widget_bounds_imply_preconditions (m v : ℝ)
    (hm : acceptedMass m) (hv : acceptedVel v) :
    0 < m ∧ |v| < 1 ∧ 0 < 1 - v ^ 2 := by
  unfold acceptedMass massInputMin at hm
  unfold acceptedVel velInputMin velInputMax at hv
  have habs : |v| < 1 := by
    rw [abs_lt]
    constructor <;> nlinarith [hv.1, hv.2]
  exact ⟨by linarith, habs, one_sub_sq_pos habs⟩

/-- Witness for C10 at the concrete widget values `m = 1`, `v = 0`. -/
theorem widget_bounds_imply_preconditions_witness :
    acceptedMass 1 ∧ acceptedVel 0 ∧
      ((0:ℝ) < 1 ∧ |(0:ℝ)| < 1 ∧ (0:ℝ) < 1 - (0:ℝ) ^ 2) := by
  have h1 : acceptedMass 1 := by
    unfold acceptedMass massInputMin; norm_num
  have h2 : acceptedVel 0 := by
    unfold acceptedVel velInputMin velInputMax; norm_num
  exact ⟨h1, h2, widget_bounds_imply_preconditions 1 0 h1 h2⟩

/-- C3 counterexample: at `v = 3/2`, which lies outside `(-1, 1)`, the
page's `gamma` does not raise a domain error — its `Except`-lifted run
returns `ok`, because the source body `1 / np.sqrt(1 - v**2)` contains no
validation and no raise. -/
theorem gamma_domain_error_counterexample :
    ¬ (-1 < (3/2 : ℝ) ∧ (3/2 : ℝ) < 1) ∧
      Except.isOk (gammaRun (3/2)) = true :=
  ⟨by norm_num, rfl⟩

/-- C3 (amended): `gamma` performs no domain check and never raises: for
every input, including the boundary and super-luminal inputs `v = 1`,
`v = -1`, `v = 1.5` named by the spec, it returns a value.  In the
real-number model the value at those inputs is `0` (square root of a
non-positive number is `0` and division by `0` is `0`); the floating-point
code returns `inf`/`NaN` with a warning.  No error branch blocks
computation; boundary inputs are excluded only by the input widgets. -/
theorem gamma_never_raises :
    (∀ v : ℝ, gammaRun v = Except.ok (gamma v)) ∧
    gammaRun 1 = Except.ok 0 ∧
    gammaRun (-1) = Except.ok 0 ∧
    gammaRun (3/2) = Except.ok 0 := by
  refine ⟨fun v => rfl, ?_, ?_, ?_⟩ <;>
    · unfold gammaRun gamma
      rw [show Real.sqrt _ = 0 from Real.sqrt_eq_zero'.mpr (by norm_num)]
      norm_num

/-- C4 counterexample: with a solver run that fails to find a root
(modelled by a solver output of `(0, 0)` at the input
`m1 = m2 = 1`, `v1 = v2 = 3/5`), the recomputed energy residual exceeds the
`1e-6` tolerance, yet the elastic presentation still shows the result: the
page suppresses nothing and surfaces no failure condition. -/
theorem elastic_postcondition_counterexample :
    (elasticPresent (E_total 1 (3/5) 1 (3/5)) (p_total 1 (3/5) 1 (3/5))
        (elastic (fun _ _ => (0, 0)) 1 (3/5) 1 (3/5))).isSome = true ∧
    ¬ |(elastic (fun _ _ => (0, 0)) 1 (3/5) 1 (3/5)).E1f
        + (elastic (fun _ _ => (0, 0)) 1 (3/5) 1 (3/5)).E2f
        - E_total 1 (3/5) 1 (3/5)| ≤ 1e-6 := by
  constructor
  · rfl
  · have hg : gamma (3/5 : ℝ) = 5/4 := by
      unfold gamma
      rw [show (1:ℝ) - (3/5) ^ 2 = (4/5) ^ 2 by norm_num,
        Real.sqrt_sq (by norm_num : (0:ℝ) ≤ 4/5)]
      norm_num
    have hg0 : gamma (0 : ℝ) = 1 := by
      unfold gamma
      norm_num
    simp only [elastic, E_total, energy, guess, hg, hg0]
    rw [show |(1:ℝ) * 1 + 1 * 1 - (5 / 4 * 1 + 5 / 4 * 1)| = 1/2 by
      rw [abs_of_neg] <;> norm_num]
    norm_num

/-- C4 (amended): after the elastic solve, the page recomputes the
conservation residuals `ΔE = E1f + E2f - E_total` and
`Δp = p1f + p2f - p_total` from the solved state and displays them next to
the results, but it performs no tolerance check, inspects no convergence
flag, and never suppresses: every elastic result is presented
unconditionally. -/
theorem elastic_presentation_unconditional (Et pt : ℝ) (r : ElasticResult) :
    elasticPresent Et pt r =
      some (r, r.E1f + r.E2f - Et, r.p1f + r.p2f - pt) :=
  rfl

/-- C1: for every valid two-particle input, in both collision modes the
totals recomputed from the post-collision state equal the pre-collision
totals within `1e-6`: exactly (by construction) in the inelastic branch,
and within the solver's residual tolerance in the elastic branch, where the
external `fsolve` is modelled, following the spec, by the hypothesis that
its output satisfies both residual equations to within `1e-6`. -/
theorem conservation_both_modes
    (solve : (ℝ × ℝ → ℝ × ℝ) → ℝ × ℝ → ℝ × ℝ) (m1 v1 m2 v2 : ℝ)
    (hm1 : 0 < m1) (hm2 : 0 < m2) (hv1 : |v1| < 1) (hv2 : |v2| < 1)
    (hconv :
      |(to_solutions m1 m2 (E_total m1 v1 m2 v2) (p_total m1 v1 m2 v2)
          (solve
            (to_solutions m1 m2 (E_total m1 v1 m2 v2) (p_total m1 v1 m2 v2))
            (guess v1 v2))).1| ≤ 1e-6 ∧
      |(to_solutions m1 m2 (E_total m1 v1 m2 v2) (p_total m1 v1 m2 v2)
          (solve
            (to_solutions m1 m2 (E_total m1 v1 m2 v2) (p_total m1 v1 m2 v2))
            (guess v1 v2))).2| ≤ 1e-6) :
    |(inelastic m1 v1 m2 v2).E_final - E_total m1 v1 m2 v2| ≤ 1e-6 ∧
    |(inelastic m1 v1 m2 v2).p_final - p_total m1 v1 m2 v2| ≤ 1e-6 ∧
    |(elastic solve m1 v1 m2 v2).E1f + (elastic solve m1 v1 m2 v2).E2f
      - E_total m1 v1 m2 v2| ≤ 1e-6 ∧
    |(elastic solve m1 v1 m2 v2).p1f + (elastic solve m1 v1 m2 v2).p2f
      - p_total m1 v1 m2 v2| ≤ 1e-6 := by
  refine ⟨?_, ?_, ?_, ?_⟩
  · show |E_total m1 v1 m2 v2 - E_total m1 v1 m2 v2| ≤ 1e-6
    rw [sub_self, abs_zero]; norm_num
  · show |p_total m1 v1 m2 v2 - p_total m1 v1 m2 v2| ≤ 1e-6
    rw [sub_self, abs_zero]; norm_num
  · exact hconv.2
  · exact hconv.1

/-- Witness for C1 at the concrete valid input `m1 = m2 = 1`,
`v1 = v2 = 0`, with the solver that returns its seed (the seed is already an
exact root there). -/
theorem conservation_both_modes_witness :
    ((0:ℝ) < 1 ∧ |(0:ℝ)| < 1 ∧
     |(to_solutions 1 1 (E_total 1 0 1 0) (p_total 1 0 1 0)
        ((fun _ g => g) (to_solutions 1 1 (E_total 1 0 1 0) (p_total 1 0 1 0))
          (guess 0 0))).1| ≤ 1e-6 ∧
     |(to_solutions 1 1 (E_total 1 0 1 0) (p_total 1 0 1 0)
        ((fun _ g => g) (to_solutions 1 1 (E_total 1 0 1 0) (p_total 1 0 1 0))
          (guess 0 0))).2| ≤ 1e-6) ∧
    (|(inelastic 1 0 1 0).E_final - E_total 1 0 1 0| ≤ 1e-6 ∧
     |(inelastic 1 0 1 0).p_final - p_total 1 0 1 0| ≤ 1e-6 ∧
     |(elastic (fun _ g => g) 1 0 1 0).E1f + (elastic (fun _ g => g) 1 0 1 0).E2f
       - E_total 1 0 1 0| ≤ 1e-6 ∧
     |(elastic (fun _ g => g) 1 0 1 0).p1f + (elastic (fun _ g => g) 1 0 1 0).p2f
       - p_total 1 0 1 0| ≤ 1e-6) := by
  have hg0 : gamma (0 : ℝ) = 1 := by
    unfold gamma; norm_num
  have hres1 :
      |(to_solutions 1 1 (E_total 1 0 1 0) (p_total 1 0 1 0)
        ((fun _ g => g) (to_solutions 1 1 (E_total 1 0 1 0) (p_total 1 0 1 0))
          (guess 0 0))).1| ≤ 1e-6 := by
    simp only [to_solutions, guess, E_total, p_total, energy, momentum, hg0]
    norm_num
  have hres2 :
      |(to_solutions 1 1 (E_total 1 0 1 0) (p_total 1 0 1 0)
        ((fun _ g => g) (to_solutions 1 1 (E_total 1 0 1 0) (p_total 1 0 1 0))
          (guess 0 0))).2| ≤ 1e-6 := by
    simp only [to_solutions, guess, E_total, p_total, energy, momentum, hg0]
    norm_num
  exact ⟨⟨by norm_num, by norm_num, hres1, hres2⟩,
    conservation_both_modes (fun _ g => g) 1 0 1 0 (by norm_num) (by norm_num)
      (by norm_num) (by norm_num) ⟨hres1, hres2⟩⟩

/-- C6: for every pair of sub-luminal massive particles, the merged
velocity satisfies `|p_total / E_total| < 1`, the invariant-mass radicand
`E_total² - p_total²` is non-negative, and `gamma(final_velocity)`'s
radicand `1 - vf²` is strictly positive, so the square root and
`gamma(final_velocity)` are well defined and no error branch is
reachable. -/
theorem inelastic_wellformed (m1 v1 m2 v2 : ℝ) (hm1 : 0 < m1) (hm2 : 0 < m2)
    (hv1 : |v1| < 1) (hv2 : |v2| < 1) :
    |(inelastic m1 v1 m2 v2).vf| < 1 ∧
    0 ≤ E_total m1 v1 m2 v2 ^ 2 - p_total m1 v1 m2 v2 ^ 2 ∧
    0 < 1 - (inelastic m1 v1 m2 v2).vf ^ 2 := by
  have hvf : |(inelastic m1 v1 m2 v2).vf| < 1 := by
    show |p_total m1 v1 m2 v2 / E_total m1 v1 m2 v2| < 1
    exact abs_v_com_lt_one hm1 hm2 hv1 hv2
  refine ⟨hvf, ?_, one_sub_sq_pos hvf⟩
  have h1 := abs_p_total_lt_E_total hm1 hm2 hv1 hv2
  have h2 := E_total_pos hm1 hm2 hv1 hv2
  nlinarith [sq_abs (p_total m1 v1 m2 v2), abs_nonneg (p_total m1 v1 m2 v2)]

/-- Witness for C6 at the concrete valid input `m1 = m2 = 1`,
`v1 = v2 = 0`. -/
theorem inelastic_wellformed_witness :
    (0:ℝ) < 1 ∧ |(0:ℝ)| < 1 ∧
      (|(inelastic 1 0 1 0).vf| < 1 ∧
       0 ≤ E_total 1 0 1 0 ^ 2 - p_total 1 0 1 0 ^ 2 ∧
       0 < 1 - (inelastic 1 0 1 0).vf ^ 2) :=
  ⟨by norm_num, by norm_num,
    inelastic_wellformed 1 0 1 0 (by norm_num) (by norm_num)
      (by norm_num) (by norm_num)⟩

/-- C8: when both particles enter with the same velocity `v` (no relative
motion), the elastic branch returns the input velocities unchanged:
`(v, v)` is the unique sub-luminal root of the conservation system, so any
solver run that converges — modelled, following the spec, by the hypothesis
that its sub-luminal output zeroes the residuals — yields
`v1f = v` and `v2f = v`. -/
theorem elastic_no_motion
    (solve : (ℝ × ℝ → ℝ × ℝ) → ℝ × ℝ → ℝ × ℝ) (m1 m2 v : ℝ)
    (hm1 : 0 < m1) (hm2 : 0 < m2) (hv : |v| < 1)
    (ha : |(solve (to_solutions m1 m2 (E_total m1 v m2 v) (p_total m1 v m2 v))
        (guess v v)).1| < 1)
    (hb : |(solve (to_solutions m1 m2 (E_total m1 v m2 v) (p_total m1 v m2 v))
        (guess v v)).2| < 1)
    (hroot : to_solutions m1 m2 (E_total m1 v m2 v) (p_total m1 v m2 v)
      (solve (to_solutions m1 m2 (E_total m1 v m2 v) (p_total m1 v m2 v))
        (guess v v)) = (0, 0)) :
    (elastic solve m1 v m2 v).v1f = v ∧ (elastic solve m1 v m2 v).v2f = v := by
  have h := elastic_root_unique hm1 hm2 hv ha hb (by rw [Prod.mk.eta]; exact hroot)
  exact ⟨h.1, h.2⟩

/-- Witness for C8 at the concrete input `m1 = m2 = 1`, `v = 0`, with the
solver that returns its seed (the seed is already the exact root there). -/
theorem elastic_no_motion_witness :
    ((0:ℝ) < 1 ∧ |(0:ℝ)| < 1 ∧
     |((fun _ g => g) (to_solutions 1 1 (E_total 1 0 1 0) (p_total 1 0 1 0))
        (guess 0 0) : ℝ × ℝ).1| < 1 ∧
     |((fun _ g => g) (to_solutions 1 1 (E_total 1 0 1 0) (p_total 1 0 1 0))
        (guess 0 0) : ℝ × ℝ).2| < 1 ∧
     to_solutions 1 1 (E_total 1 0 1 0) (p_total 1 0 1 0)
       ((fun _ g => g) (to_solutions 1 1 (E_total 1 0 1 0) (p_total 1 0 1 0))
         (guess 0 0)) = (0, 0)) ∧
    ((elastic (fun _ g => g) 1 0 1 0).v1f = 0 ∧
     (elastic (fun _ g => g) 1 0 1 0).v2f = 0) := by
  have hg0 : gamma (0 : ℝ) = 1 := by
    unfold gamma; norm_num
  have ha : |((fun _ g => g)
      (to_solutions 1 1 (E_total 1 0 1 0) (p_total 1 0 1 0))
      (guess 0 0) : ℝ × ℝ).1| < 1 := by
    simp [guess]
  have hb : |((fun _ g => g)
      (to_solutions 1 1 (E_total 1 0 1 0) (p_total 1 0 1 0))
      (guess 0 0) : ℝ × ℝ).2| < 1 := by
    simp [guess]
  have hroot : to_solutions 1 1 (E_total 1 0 1 0) (p_total 1 0 1 0)
      ((fun _ g => g) (to_solutions 1 1 (E_total 1 0 1 0) (p_total 1 0 1 0))
        (guess 0 0)) = (0, 0) := by
    simp only [to_solutions, guess, E_total, p_total, energy, momentum, hg0]
    norm_num
  exact ⟨⟨by norm_num, by norm_num, ha, hb, hroot⟩,
    elastic_no_motion (fun _ g => g) 1 1 0 (by norm_num) (by norm_num)
      (by norm_num) ha hb hroot⟩

/-- C9: swapping the particle labels and negating both input velocities
produces the mirror-image computation in either mode: the totals keep their
energies and negate their momenta, `v_com` and the inelastic composite
velocity flip sign while its gamma, invariant mass and energy are
unchanged, the elastic conservation system's roots correspond under
`(a, b) ↦ (-b, -a)`, and the per-particle energies and momenta recomputed
at a mirrored solution are the originals with equal energies and negated
momenta. -/
theorem mirror_symmetry (m1 v1 m2 v2 : ℝ) :
    E_total m2 (-v2) m1 (-v1) = E_total m1 v1 m2 v2 ∧
    p_total m2 (-v2) m1 (-v1) = -p_total m1 v1 m2 v2 ∧
    v_com m2 (-v2) m1 (-v1) = -v_com m1 v1 m2 v2 ∧
    (inelastic m2 (-v2) m1 (-v1)).vf = -(inelastic m1 v1 m2 v2).vf ∧
    (inelastic m2 (-v2) m1 (-v1)).gf = (inelastic m1 v1 m2 v2).gf ∧
    (inelastic m2 (-v2) m1 (-v1)).M = (inelastic m1 v1 m2 v2).M ∧
    (inelastic m2 (-v2) m1 (-v1)).E_final = (inelastic m1 v1 m2 v2).E_final ∧
    (inelastic m2 (-v2) m1 (-v1)).p_final = -(inelastic m1 v1 m2 v2).p_final ∧
    (∀ a b : ℝ,
      to_solutions m2 m1 (E_total m2 (-v2) m1 (-v1))
        (p_total m2 (-v2) m1 (-v1)) (-b, -a) = (0, 0) ↔
      to_solutions m1 m2 (E_total m1 v1 m2 v2)
        (p_total m1 v1 m2 v2) (a, b) = (0, 0)) ∧
    (∀ w : ℝ, energy m1 (-w) = energy m1 w ∧ energy m2 (-w) = energy m2 w ∧
      momentum m1 (-w) = -momentum m1 w ∧
      momentum m2 (-w) = -momentum m2 w) := by
  have hEt : E_total m2 (-v2) m1 (-v1) = E_total m1 v1 m2 v2 := by
    unfold E_total
    rw [energy_neg, energy_neg]
    ring
  have hpt : p_total m2 (-v2) m1 (-v1) = -p_total m1 v1 m2 v2 := by
    unfold p_total
    rw [momentum_neg, momentum_neg]
    ring
  refine ⟨hEt, hpt, ?_, ?_, ?_, ?_, hEt, hpt, ?_, ?_⟩
  · unfold v_com
    rw [hEt, hpt, neg_div]
  · show p_total m2 (-v2) m1 (-v1) / E_total m2 (-v2) m1 (-v1) =
      -(p_total m1 v1 m2 v2 / E_total m1 v1 m2 v2)
    rw [hEt, hpt, neg_div]
  · show gamma (p_total m2 (-v2) m1 (-v1) / E_total m2 (-v2) m1 (-v1)) =
      gamma (p_total m1 v1 m2 v2 / E_total m1 v1 m2 v2)
    rw [hEt, hpt, neg_div, gamma_neg]
  · show Real.sqrt (E_total m2 (-v2) m1 (-v1) ^ 2
        - p_total m2 (-v2) m1 (-v1) ^ 2) =
      Real.sqrt (E_total m1 v1 m2 v2 ^ 2 - p_total m1 v1 m2 v2 ^ 2)
    rw [hEt, hpt, neg_sq]
  · intro a b
    simp only [to_solutions, Prod.mk.injEq]
    rw [gamma_neg, gamma_neg, hEt, hpt]
    constructor
    · intro h
      exact ⟨by linear_combination -h.1, by linear_combination h.2⟩
    · intro h
      exact ⟨by linear_combination -h.1, by linear_combination h.2⟩
  · intro w
    exact ⟨energy_neg m1 w, energy_neg m2 w, momentum_neg m1 w,
      momentum_neg m2 w⟩

end Collisions

end
